import Mathlib

/-!
Verification of the configuration-language core of `build.py`:
lexer (`ConfigRead.lex`), token grouper (`ConfigRead.split`), parser
(`ConfigRead.parse` / `ConfigRead.preparse`), the `Result` type with its
`unwrap`, the command handlers (`echo`, `copy`, `move`, `mkdir`, `build`)
and the queue executor (`ConfigRead.run`).

Python conventions used by the embedding:
* a Python function that can raise is modelled with `PyOutcome` / `Except PyErr`;
* `exit(2)` (reached through `printf(..., level='f')`) is the `exited` outcome;
* machine-level Python behaviour relevant here: calling a constructor whose
  `__init__(self, data)` has no default with zero arguments, or with an
  unexpected keyword argument, raises `TypeError`; indexing an empty list
  raises `IndexError`; a missing dict key raises `KeyError`.
-/

namespace BuildPy

/-- Python exceptions that the modelled code can raise. -/
inductive PyErr where
  | typeError (msg : String)
  | indexError
  | keyError (key : String)
  | ioError (msg : String)
deriving DecidableEq, Repr

/-- Outcome of running a piece of Python code: normal return, a raised
exception propagating to the caller, or whole-process termination. -/
inductive PyOutcome (α : Type) where
  | ret (v : α)
  | raised (e : PyErr)
  | exited (code : Nat)
deriving DecidableEq, Repr

/-- Python values that flow through `Result` in `build.py`.  The only tuples
this program ever builds come from splatting iterated strings in
`Result.__init__`, so the tuple payload is a list of strings. -/
inductive PyVal where
  | pyBool (b : Bool)
  | pyStr (s : String)
  | pyTuple (xs : List String)
  | pyExc (msg : String)
  | pyErr (msg : String)
deriving DecidableEq, Repr

/-- `str(v)` for the values above (string content only; tuples rendered
with parentheses and comma separators). -/
def strVal : PyVal → String
  | .pyBool b => if b then "True" else "False"
  | .pyStr s => s
  | .pyExc m => m
  | .pyErr m => m
  | .pyTuple xs => "(" ++ String.intercalate ", " xs ++ ")"

/-- `definitions["debug"]` in `build.py`. -/
def definitions_debug : Bool := true

/-- `definitions["verbose"]` in `build.py`. -/
def definitions_verbose : Bool := false

/-- Level marker selected by `printf`:
`'*'`/`'!'`/`'@'`/`'~'`/`'.'`/`'&'`/`'?'`. -/
def levelSymbol (l : String) : String :=
  if l = "i" then "*"
  else if l = "w" then "!"
  else if l = "e" then "@"
  else if l = "d" then "~"
  else if l = "v" then "."
  else if l = "f" then "&"
  else "?"

/-- What one `printf` call printed (and logged), and whether it terminated
the process. -/
structure PrintfOut where
  printed : List String
  exited : Option Nat
deriving DecidableEq, Repr

/-- `level[0].lower().strip()`: first character of the level string,
lower-cased (every call site passes a non-blank level, so `strip` is the
identity). -/
def levelHead (level : String) : String :=
  match level.data with
  | [] => ""
  | c :: _ => String.singleton c.toLower

/-- `message.replace("\n", repl)`: the pattern is always the single newline
character, so replacement is char-by-char. -/
def replaceNL (s : String) (repl : String) : String :=
  ⟨s.data.foldr (fun c acc => if c = '\n' then repl.data ++ acc else c :: acc) []⟩

/-- `printf(message, level=...)` from `build.py`.  Debug/verbose messages are
suppressed according to the global flags; a fatal message exits with status 2
(`definitions_verbose` is `false`, so the `exit(2)` branch is taken; the
re-entrant `printf` call in the verbose case is unreachable). -/
def printf (message : String) (level : String) : PrintfOut :=
  let l := levelHead level
  if l = "d" ∧ definitions_debug = false then ⟨[], none⟩
  else if l = "v" ∧ definitions_verbose = false then ⟨[], none⟩
  else
    let msg := "[" ++ levelSymbol l ++ "] " ++ replaceNL message "\n[\x60] "
    ⟨[msg], if l = "f" then some 2 else none⟩

/-- The `Result` object: `result` is the ok/err tag, `data` the payload. -/
structure Result where
  result : Bool
  data : PyVal
deriving DecidableEq, Repr

/-- Is a value iterable in the sense used by `Result.__init__`? -/
def pyIterable : PyVal → Bool
  | .pyStr _ => true
  | .pyTuple _ => true
  | _ => false

/-- `[*data]` for an iterable value (a string iterates into its characters). -/
def pyListOf : PyVal → List String
  | .pyStr s => s.data.map (fun c => String.singleton c)
  | .pyTuple xs => xs
  | _ => []

/-- Is a value an `Exception` instance (`Err` is a subclass)? -/
def pyIsException : PyVal → Bool
  | .pyExc _ => true
  | .pyErr _ => true
  | _ => false

/-- `tuple(*xs)`: zero arguments gives the empty tuple, one argument (here
always a string, hence iterable) is expanded into its characters, and two or
more arguments raise `TypeError`. -/
def tupleStar (xs : List String) : Except PyErr PyVal :=
  match xs with
  | [] => .ok (.pyTuple [])
  | [x] => .ok (.pyTuple (x.data.map (fun c => String.singleton c)))
  | _ => .error (.typeError "tuple expected at most 1 argument")

/-- `Result(data)` with one positional argument: iterables are splatted into
a tuple (possibly raising `TypeError`), exceptions become the `Err` variant
carrying `str(Exception)` — the class, not the instance, as in the source —
and anything else is stored as-is with the ok tag. -/
def resultInit (data : PyVal) : Except PyErr Result :=
  if pyIterable data then
    match tupleStar (pyListOf data) with
    | .ok t => .ok ⟨true, t⟩
    | .error e => .error e
  else if pyIsException data then
    .ok ⟨false, .pyErr "<class \x27Exception\x27>"⟩
  else
    .ok ⟨true, data⟩

/-- `Result()` with no argument: `__init__(self, data)` has no default for
`data`, so the call raises `TypeError`. -/
def resultInitNoArgs : Except PyErr Result :=
  .error (.typeError "init() missing 1 required positional argument: data")

/-- `Result(e=...)`: `__init__` accepts no keyword `e`, so the call raises
`TypeError`. -/
def resultInitKwE (_e : PyVal) : Except PyErr Result :=
  .error (.typeError "init() got an unexpected keyword argument e")

/-- Lift a possibly-raising `Result` construction into a handler outcome. -/
def exceptToOutcome : Except PyErr Result → PyOutcome Result
  | .ok r => .ret r
  | .error e => .raised e

/-- `Result.unwrap`: on the err tag it calls `printf(str(self.data), level='f')`,
which exits the process with status 2 after printing/logging; on the ok tag it
returns the payload.  The second component collects the fatal diagnostic. -/
def unwrap (r : Result) : PyOutcome PyVal × List String :=
  if r.result then (.ret r.data, [])
  else
    let p := printf (strVal r.data) "f"
    match p.exited with
    | some c => (.exited c, p.printed)
    | none => (.ret r.data, p.printed)

/-- A lexer token: `[category, literal]` in the source. -/
structure Tok where
  cat : String
  lit : String
deriving DecidableEq, Repr

/-- `string.ascii_letters` membership (ASCII `A`-`Z`, `a`-`z`). -/
def pyLetter (c : Char) : Bool :=
  decide ((65 ≤ c.toNat ∧ c.toNat ≤ 90) ∨ (97 ≤ c.toNat ∧ c.toNat ≤ 122))

/-- `string.digits` membership (ASCII `0`-`9`). -/
def pyDigit (c : Char) : Bool :=
  decide (48 ≤ c.toNat ∧ c.toNat ≤ 57)

/-- `string.punctuation` membership (the 32 ASCII punctuation characters,
code points 33-47, 58-64, 91-96 and 123-126). -/
def pyPunct (c : Char) : Bool :=
  decide ((33 ≤ c.toNat ∧ c.toNat ≤ 47) ∨ (58 ≤ c.toNat ∧ c.toNat ≤ 64) ∨
    (91 ≤ c.toNat ∧ c.toNat ≤ 96) ∨ (123 ≤ c.toNat ∧ c.toNat ≤ 126))

/-- The `replace` dict of single-character overrides in `ConfigRead.lex`. -/
def replaceCat (c : Char) : Option String :=
  if c = '\\' then some "BACKSLASH"
  else if c = '#' then some "COMMENT"
  else if c = '\x27' then some "QUOTA"
  else if c = '"' then some "DOUBLE_QUOTA"
  else if c = '?' then some "VARIABLE"
  else if c = '(' then some "PARENTESS_LEFT"
  else if c = ')' then some "PARENTESS_RIGHT"
  else if c = '-' then some "DASH"
  else if c = ' ' then some "WHITESPACE"
  else if c = '\n' then some "NLINE"
  else if c = ';' then some "NLINE"
  else none

/-- The merged `_tokens` classification table of `ConfigRead.lex`: the dict is
updated with letters, then digits, then punctuation, then the overrides, so a
later entry wins over an earlier one. -/
def charCat (c : Char) : Option String :=
  match replaceCat c with
  | some t => some t
  | none =>
      if pyPunct c then some "PUNCTUATION"
      else if pyDigit c then some "NUMBER"
      else if pyLetter c then some "LETTER"
      else none

/-- The loop of `ConfigRead.lex` over `enumerate(data)`: a classified
character appends one token, an unknown character appends no token and emits
the `printf` diagnostic (default level `i`, non-fatal). -/
def lexGo : List Char → Nat → List Tok × List String
  | [], _pos => ([], [])
  | c :: rest, pos =>
      let r := lexGo rest (pos + 1)
      match charCat c with
      | some t => (⟨t, String.singleton c⟩ :: r.1, r.2)
      | none =>
          (r.1,
            (printf ("Unknown symbol " ++ String.singleton c ++ " at " ++ toString pos)
              "i").printed ++ r.2)

/-- `ConfigRead.lex`: token stream together with the diagnostics printed for
unknown characters. -/
def lexFull (data : List Char) : List Tok × List String := lexGo data 0

/-- The token stream returned by `ConfigRead.lex`. -/
def lex (data : List Char) : List Tok := (lexFull data).1

/-- One statement produced by the grouper: the pair of its two token groups
(`out[i][0]`, `out[i][1]` in the source). -/
abbrev Stmt := List Tok × List Tok

/-- The loop state of `ConfigRead.split`: the accumulated statements and the
`write_to` / `dash` / `skipped` / `put` variables. -/
structure SplitState where
  out : List Stmt
  write_to : Nat
  dash : Bool
  skipped : Bool
  put : Bool
deriving DecidableEq, Repr

/-- `out[-1][write_to].append(t)`: append a token to the indicated group of
the last open statement (`write_to` is always 0 or 1; the never-reached empty
case returns the list unchanged). -/
def appendLast : List Stmt → Nat → Tok → List Stmt
  | [], _w, _t => []
  | [g], w, t => [if w = 0 then (g.1 ++ [t], g.2) else (g.1, g.2 ++ [t])]
  | g :: h :: rest, w, t => g :: appendLast (h :: rest) w t

/-- The deferred-emission block at the top of the `split` loop body: when
`put` is set, the previous token is appended to the current group, and `put`
is unconditionally re-armed afterwards. -/
def stepEmit (prev : Tok) (s : SplitState) : SplitState :=
  if s.put then ⟨appendLast s.out s.write_to prev, s.write_to, s.dash, s.skipped, true⟩
  else ⟨s.out, s.write_to, s.dash, s.skipped, true⟩

/-- The category dispatch of the `split` loop body (everything after the
emission block): `DASH`, `BACKSLASH` and `NLINE` consume the `skipped` flag
if it is armed, otherwise perform their action; any other category only
clears a pending lone dash. -/
def handleCat (x : Tok) (s : SplitState) : SplitState :=
  if x.cat = "DASH" then
    if s.skipped then { s with skipped := false }
    else if s.dash then
      { s with put := false, write_to := (s.write_to + 1) % 2, dash := false }
    else { s with put := false, dash := true }
  else if x.cat = "BACKSLASH" then
    if s.skipped then { s with skipped := false }
    else { s with put := false, skipped := true }
  else if x.cat = "NLINE" then
    if s.skipped then { s with skipped := false }
    else { s with put := false, out := s.out ++ [([], [])] }
  else if s.dash then { s with dash := false } else s

/-- The `split` loop from position 1 onwards: at each position the previous
token is (conditionally) emitted, `put` is re-armed, and the current token is
dispatched on its category. -/
def splitGo : List Tok → Tok → SplitState → SplitState
  | [], _prev, s => s
  | x :: rest, prev, s => splitGo rest x (handleCat x (stepEmit prev s))

/-- Initial state of `ConfigRead.split`: one open statement with two empty
groups, `write_to = 0`, `dash = False`, `skipped = True`, `put = True`. -/
def splitInit : SplitState := ⟨[([], [])], 0, false, true, true⟩

/-- Full run of the `ConfigRead.split` loop, returning the final state.
Position 0 skips the emission block (`if not pos == 0`), so the first token
is only dispatched on its category. -/
def splitRunState : List Tok → SplitState
  | [] => splitInit
  | x :: rest => splitGo rest x (handleCat x splitInit)

/-- `ConfigRead.split`: the statement list built by the grouper. -/
def split (tokens : List Tok) : List Stmt := (splitRunState tokens).out

/-- Token categories with a dedicated branch in the `split` loop. -/
def isSpecial (t : Tok) : Bool :=
  t.cat = "DASH" ∨ t.cat = "BACKSLASH" ∨ t.cat = "NLINE"

/-- A token occurs in one of the groups of one of the statements. -/
def memOut (t : Tok) (out : List Stmt) : Prop :=
  ∃ s ∈ out, t ∈ s.1 ∨ t ∈ s.2

instance (t : Tok) (out : List Stmt) : Decidable (memOut t out) := by
  unfold memOut; infer_instance

/-- A flat model of the filesystem visible to the handlers: the set of
directory paths and the set of file paths. -/
structure FSState where
  dirs : List String
  files : List String
deriving DecidableEq, Repr

/-- `os.path.isdir`. -/
def isdir (fs : FSState) (p : String) : Bool := fs.dirs.contains p

/-- `os.path.basename` (component after the last slash). -/
def basename (p : String) : String := (p.splitOn "/").getLastD ""

/-- `os.path.join` for the two-argument uses in `_fs_io_real`. -/
def joinPath (a b : String) : String := a ++ "/" ++ b

/-- External primitive `shutil.copyfile`: single-file copy; raises if the
source file does not exist. -/
def copyfileOp (src dst : String) (fs : FSState) : Except PyErr FSState :=
  if fs.files.contains src then
    .ok { fs with files := if fs.files.contains dst then fs.files else dst :: fs.files }
  else .error (.ioError ("No such file: " ++ src))

/-- External primitive `shutil.copytree`: recursive directory copy; raises if
the source directory does not exist. -/
def copytreeOp (src dst : String) (fs : FSState) : Except PyErr FSState :=
  if fs.dirs.contains src then
    .ok { fs with dirs := if fs.dirs.contains dst then fs.dirs else dst :: fs.dirs }
  else .error (.ioError ("No such directory: " ++ src))

/-- External primitive `shutil.move`: relocates a file or directory; raises
if the source does not exist. -/
def moveOp (src dst : String) (fs : FSState) : Except PyErr FSState :=
  if fs.files.contains src then
    .ok { fs with files := dst :: fs.files.erase src }
  else if fs.dirs.contains src then
    .ok { fs with dirs := dst :: fs.dirs.erase src }
  else .error (.ioError ("No such file or directory: " ++ src))

/-- `ConfigRead._fs_io_check`: each branch constructs a `Result` with the
unsupported keyword `e` or with no argument, so every branch raises
`TypeError` before a `Result` is ever returned. -/
def fs_io_check (src : List String) (dst : String) (fs : FSState) : Except PyErr Result :=
  if isdir fs dst = false ∧ src.length > 1 then
    resultInitKwE (.pyExc "Destination is not dir, cannot overwrite files!")
  else if src.length < 1 then
    resultInitKwE (.pyExc "Destination is not set!")
  else resultInitNoArgs

/-- `ConfigRead._fs_io_real`: redirect into an existing destination directory
by basename, then dispatch on whether the source is a directory. -/
def fs_io_real (src dst : String)
    (src_dir_hand src_oth_hand : String → String → FSState → Except PyErr FSState)
    (fs : FSState) : Except PyErr FSState :=
  let dst := if isdir fs dst then joinPath dst (basename src) else dst
  if isdir fs src then src_dir_hand src dst fs else src_oth_hand src dst fs

/-- A command queue entry: `(command_name, argument_list)`. -/
abbrev QEntry := String × List String

/-- `self.queue[command_pointer][1]` as read by every handler (the executor
only passes in-range pointers). -/
def queueArgs (queue : List QEntry) (command_pointer : Nat) : List String :=
  ((queue.get? command_pointer).getD ("", [])).2

/-- The per-source loop shared by `ConfigRead.copy` and `ConfigRead.move`:
on an OS error the handler evaluates `Result(e=e)`, which raises `TypeError`;
after a successful loop it evaluates `Result()`, which also raises. -/
def fsLoop (op : String → String → FSState → Except PyErr FSState)
    (destination : String) : List String → FSState → FSState × PyOutcome Result
  | [], fs => (fs, exceptToOutcome resultInitNoArgs)
  | x :: xs, fs =>
      match op x destination fs with
      | .ok fs' => fsLoop op destination xs fs'
      | .error e => (fs, exceptToOutcome (resultInitKwE (.pyExc (reprStr e))))

/-- `ConfigRead.copy`: split the arguments into sources and destination
(`data[-1]` on an empty list raises `IndexError`), run the precondition
check whose `Result` construction raises `TypeError`, then (unreachably)
copy each source. -/
def copy (queue : List QEntry) (command_pointer : Nat) (fs : FSState) :
    FSState × PyOutcome Result :=
  let data := queueArgs queue command_pointer
  match data.getLast? with
  | none => (fs, .raised .indexError)
  | some destination =>
      let sources := data.dropLast
      match fs_io_check sources destination fs with
      | .error e => (fs, .raised e)
      | .ok r =>
          match (unwrap r).1 with
          | .exited c => (fs, .exited c)
          | _ => fsLoop (fun s d => fs_io_real s d copytreeOp copyfileOp) destination sources fs

/-- `ConfigRead.move`: same shape as `copy`, with `shutil.move` for both the
directory and the file case. -/
def move (queue : List QEntry) (command_pointer : Nat) (fs : FSState) :
    FSState × PyOutcome Result :=
  let data := queueArgs queue command_pointer
  match data.getLast? with
  | none => (fs, .raised .indexError)
  | some destination =>
      let sources := data.dropLast
      match fs_io_check sources destination fs with
      | .error e => (fs, .raised e)
      | .ok r =>
          match (unwrap r).1 with
          | .exited c => (fs, .exited c)
          | _ => fsLoop (fun s d => fs_io_real s d moveOp moveOp) destination sources fs

/-- `ConfigRead.mkdir`: `os.makedirs(x, exist_ok=True)` for every argument
(idempotent, never fails in this model), then `return Result()` raises
`TypeError`. -/
def mkdir (queue : List QEntry) (command_pointer : Nat) (fs : FSState) :
    FSState × PyOutcome Result :=
  let data := queueArgs queue command_pointer
  mkdirLoop data fs
where mkdirLoop : List String → FSState → FSState × PyOutcome Result
  | [], fs => (fs, exceptToOutcome resultInitNoArgs)
  | x :: xs, fs =>
      mkdirLoop xs { fs with dirs := if fs.dirs.contains x then fs.dirs else x :: fs.dirs }

/-- `ConfigRead.echo`: print the space-joined arguments, then `return
Result()` raises `TypeError`.  First component: the printed lines. -/
def echo (queue : List QEntry) (command_pointer : Nat) :
    List String × PyOutcome Result :=
  let data := queueArgs queue command_pointer
  ([String.intercalate " " data], exceptToOutcome resultInitNoArgs)

/-- `ConfigRead.build`: `return Result()` raises `TypeError`. -/
def build (_queue : List QEntry) (_command_pointer : Nat) : PyOutcome Result :=
  exceptToOutcome resultInitNoArgs

/-- `self.command_registry[command](x)`: dispatch through the fixed registry;
an unknown name raises `KeyError`.  Returns the filesystem after the call,
the lines it printed, and its outcome. -/
def callHandler (command : String) (queue : List QEntry) (x : Nat) (fs : FSState) :
    FSState × List String × PyOutcome Result :=
  if command = "copy" then
    let r := copy queue x fs; (r.1, [], r.2)
  else if command = "echo" then
    let r := echo queue x; (fs, r.1, r.2)
  else if command = "mkdir" then
    let r := mkdir queue x fs; (r.1, [], r.2)
  else if command = "move" then
    let r := move queue x fs; (r.1, [], r.2)
  else if command = "build" then
    (fs, [], build queue x)
  else
    (fs, [], .raised (.keyError command))

/-- The executor's observable state: filesystem plus everything printed so
far (handler output and diagnostics). -/
structure RunState where
  fs : FSState
  output : List String
deriving DecidableEq, Repr

/-- Result of `ConfigRead.run`: normal completion, an uncaught exception, or
process exit from a fatal `unwrap`. -/
inductive RunOut where
  | finished (st : RunState)
  | raised (st : RunState) (e : PyErr)
  | exited (st : RunState) (code : Nat)
deriving DecidableEq, Repr

/-- The loop of `ConfigRead.run` over the remaining queue indices: the
`try` block runs `self.command_registry[command](x).unwrap()` and only
`KeyError` (an unregistered command name) is caught and turned into an
error-level diagnostic; every other exception propagates, and a fatal
`unwrap` exits. -/
def runGo (queue : List QEntry) : List Nat → RunState → RunOut
  | [], st => .finished st
  | x :: xs, st =>
      let command := ((queue.get? x).getD ("", [])).1
      let r := callHandler command queue x st.fs
      match r.2.2 with
      | .raised (.keyError _) =>
          runGo queue xs
            ⟨st.fs, st.output ++ r.2.1 ++ (printf ("Unresolved command: " ++ command) "e").printed⟩
      | .raised e => .raised ⟨r.1, st.output ++ r.2.1⟩ e
      | .exited c => .exited ⟨r.1, st.output ++ r.2.1⟩ c
      | .ret res =>
          match unwrap res with
          | (.exited c, logs) => .exited ⟨r.1, st.output ++ r.2.1 ++ logs⟩ c
          | (_, logs) => runGo queue xs ⟨r.1, st.output ++ r.2.1 ++ logs⟩

/-- `ConfigRead.run`: nothing to do on an empty queue, otherwise iterate over
`range(len(queue))`. -/
def run (queue : List QEntry) (st : RunState) : RunOut :=
  if queue.length < 1 then .finished st
  else runGo queue (List.range queue.length) st

/-- `ConfigRead.parse`: lex, split, then build `out` with a loop whose body
is `pass` (so `out` stays empty) and return `"echo", out[0]` — the index into
the empty list raises `IndexError` on every input. -/
def parse (data : List Char) : PyOutcome (String × List String) :=
  let tokens := lex data
  let splitted := split tokens
  let out : List (List String) := List.foldl (fun acc _x => acc) [] splitted
  match out.get? 0 with
  | some v => .ret ("echo", v)
  | none => .raised .indexError

/-- `ConfigRead.preparse`: parse the file content, then append the hard-coded
entry `["echo", ["rbphphg"]]` to the queue; an exception from `parse`
propagates before the append. -/
def preparse (content : List Char) : PyOutcome (List QEntry) :=
  match parse content with
  | .ret _d => .ret [("echo", ["rbphphg"])]
  | .raised e => .raised e
  | .exited c => .exited c

/-- Concrete tokens used by the witnesses and counterexamples. -/
def tokA : Tok := ⟨"LETTER", "a"⟩

def tokB : Tok := ⟨"LETTER", "b"⟩

def tokC : Tok := ⟨"LETTER", "c"⟩

def tokZ : Tok := ⟨"LETTER", "z"⟩

def tokDash : Tok := ⟨"DASH", "-"⟩

def tokBS : Tok := ⟨"BACKSLASH", "\\"⟩

def tokNL : Tok := ⟨"NLINE", ";"⟩

/-- The configuration text of the end-to-end scenario. -/
def cfgText : List Char := "mkdir -- /tmp/x\necho -- hello world\n".data

theorem memOut_nil (t : Tok) : ¬ memOut t [] := by
  simp [memOut]

theorem memOut_cons {t : Tok} {a : Stmt} {l : List Stmt} :
    memOut t (a :: l) ↔ (t ∈ a.1 ∨ t ∈ a.2) ∨ memOut t l := by
  simp [memOut, List.exists_mem_cons_iff]

theorem memOut_appendLast {t : Tok} :
    ∀ (out : List Stmt) (w : Nat) (x : Tok),
      memOut t (appendLast out w x) → memOut t out ∨ t = x := by
  intro out
  induction out with
  | nil =>
      intro w x h
      exact absurd h (by simp [appendLast, memOut])
  | cons g rest ih =>
      intro w x h
      cases rest with
      | nil =>
          simp only [appendLast] at h
          by_cases hw : w = 0 <;> simp [hw, memOut] at h ⊢ <;> tauto
      | cons g2 rest2 =>
          simp only [appendLast] at h
          rcases memOut_cons.1 h with hm | hm
          · exact Or.inl (memOut_cons.2 (Or.inl hm))
          · rcases ih w x hm with hh | hh
            · exact Or.inl (memOut_cons.2 (Or.inr hh))
            · exact Or.inr hh

theorem handleCat_out (x : Tok) (s : SplitState) :
    (handleCat x s).out = s.out ∨ (handleCat x s).out = s.out ++ [([], [])] := by
  unfold handleCat
  split_ifs <;> simp

theorem memOut_handleCat {t x : Tok} {s : SplitState}
    (h : memOut t (handleCat x s).out) : memOut t s.out := by
  rcases handleCat_out x s with he | he
  · rwa [he] at h
  · rw [he] at h
    rcases h with ⟨st, hst, ht⟩
    rcases List.mem_append.1 hst with h1 | h1
    · exact ⟨st, h1, ht⟩
    · simp at h1
      subst h1
      simp at ht

theorem memOut_stepEmit {t prev : Tok} {s : SplitState}
    (h : memOut t (stepEmit prev s).out) : memOut t s.out ∨ t = prev := by
  unfold stepEmit at h
  split_ifs at h
  · exact memOut_appendLast s.out s.write_to prev h
  · exact Or.inl h

theorem splitGo_mem {t : Tok} :
    ∀ (rest : List Tok) (prev : Tok) (s : SplitState),
      memOut t (splitGo rest prev s).out →
      memOut t s.out ∨ (rest ≠ [] ∧ (t = prev ∨ t ∈ rest.dropLast)) := by
  intro rest
  induction rest with
  | nil =>
      intro prev s h
      exact Or.inl h
  | cons x xs ih =>
      intro prev s h
      simp only [splitGo] at h
      rcases ih x _ h with h1 | h1
      · have h2 : memOut t (stepEmit prev s).out := memOut_handleCat h1
        rcases memOut_stepEmit h2 with h3 | h3
        · exact Or.inl h3
        · exact Or.inr ⟨by simp, Or.inl h3⟩
      · obtain ⟨hne, hor⟩ := h1
        refine Or.inr ⟨by simp, Or.inr ?_⟩
        cases xs with
        | nil => exact absurd rfl hne
        | cons y ys =>
            rcases hor with h3 | h3
            · rw [h3]
              simp [List.dropLast]
            · simpa [List.dropLast] using Or.inr h3

theorem splitGo_append (as : List Tok) :
    ∀ (bs : List Tok) (prev : Tok) (s : SplitState),
      splitGo (as ++ bs) prev s = splitGo bs (as.getLastD prev) (splitGo as prev s) := by
  induction as with
  | nil => intro bs prev s; simp [splitGo]
  | cons a as ih =>
      intro bs prev s
      simp only [List.cons_append, splitGo, List.getLastD_cons]
      exact ih bs a (handleCat a (stepEmit prev s))

theorem splitRunState_append (y : Tok) (ys suffix : List Tok) :
    splitRunState (y :: ys ++ suffix) =
      splitGo suffix (ys.getLastD y) (splitRunState (y :: ys)) := by
  show splitGo (ys ++ suffix) y (handleCat y splitInit) = _
  rw [splitGo_append]
  rfl

theorem isSpecial_false_iff {x : Tok} :
    isSpecial x = false ↔ x.cat ≠ "DASH" ∧ x.cat ≠ "BACKSLASH" ∧ x.cat ≠ "NLINE" := by
  simp [isSpecial, not_or]

theorem handleCat_ordinary {x : Tok} (hx : isSpecial x = false)
    {o : List Stmt} {w : Nat} {sk pt : Bool} :
    handleCat x ⟨o, w, false, sk, pt⟩ = ⟨o, w, false, sk, pt⟩ := by
  obtain ⟨h1, h2, h3⟩ := isSpecial_false_iff.1 hx
  simp [handleCat, h1, h2, h3]

theorem splitGo_ordinary :
    ∀ (rest : List Tok) (prev : Tok) (g : List Tok) (sk : Bool),
      (∀ t ∈ rest, isSpecial t = false) →
      splitGo rest prev ⟨[(g, [])], 0, false, sk, true⟩ =
        ⟨[(g ++ (prev :: rest).dropLast, [])], 0, false, sk, true⟩ := by
  intro rest
  induction rest with
  | nil =>
      intro prev g sk _h
      simp [splitGo]
  | cons x xs ih =>
      intro prev g sk h
      have hx : isSpecial x = false := h x (by simp)
      have hxs : ∀ t ∈ xs, isSpecial t = false := fun t ht => h t (by simp [ht])
      have he : stepEmit prev (⟨[(g, [])], 0, false, sk, true⟩ : SplitState) =
          ⟨[(g ++ [prev], [])], 0, false, sk, true⟩ := by
        simp [stepEmit, appendLast]
      simp only [splitGo, he, handleCat_ordinary hx, ih x (g ++ [prev]) sk hxs]
      simp [List.dropLast]

theorem splitRunState_ordinary (ts : List Tok)
    (h : ∀ t ∈ ts, isSpecial t = false) :
    splitRunState ts = ⟨[(ts.dropLast, [])], 0, false, true, true⟩ := by
  cases ts with
  | nil => rfl
  | cons x rest =>
      have hx : isSpecial x = false := h x (by simp)
      have hr : ∀ t ∈ rest, isSpecial t = false := fun t ht => h t (by simp [ht])
      show splitGo rest x (handleCat x splitInit) = _
      rw [show splitInit = (⟨[([], [])], 0, false, true, true⟩ : SplitState) from rfl,
        handleCat_ordinary hx, splitGo_ordinary rest x [] true hr]
      simp

/-- Claim C10: the grouper never appends the final token of its input to any
group — every token occurring in a group of `split ts` already occurs among
the tokens of `ts` with the last one removed, because a token is only emitted
while the next token is being processed and no emission step runs after the
loop ends. -/
theorem split_never_emits_last_token (ts : List Tok) (t : Tok)
    (h : memOut t (split ts)) : t ∈ ts.dropLast := by
  cases ts with
  | nil => exact absurd h (by simp [split, splitRunState, splitInit, memOut])
  | cons x rest =>
      have h' : memOut t (splitGo rest x (handleCat x splitInit)).out := h
      rcases splitGo_mem rest x _ h' with h1 | h1
      · have h2 := memOut_handleCat h1
        exact absurd h2 (by simp [splitInit, memOut])
      · obtain ⟨hne, hor⟩ := h1
        cases rest with
        | nil => exact absurd rfl hne
        | cons y ys =>
            rcases hor with h3 | h3
            · rw [h3]
              simp [List.dropLast]
            · simpa [List.dropLast] using Or.inr h3

/-- Claim C10 witness: in `split [a, b, c]` the token `a` is the only group
member, and it is among the first two tokens. -/
theorem split_never_emits_last_token_witness :
    memOut tokA (split [tokA, tokB, tokC]) ∧ tokA ∈ ([tokA, tokB, tokC]).dropLast :=
  ⟨by decide, split_never_emits_last_token [tokA, tokB, tokC] tokA (by decide)⟩

/-- Claim C8 counterexample: the statement `([a], [b])` is a grouper output
with no `DASH`/`BACKSLASH`/`NLINE` token in its groups, yet regrouping the
concatenation of its two groups yields `[([a], [])]`, not the same two
groups. -/
theorem regroup_flattened_statement_cex :
    ([tokA], [tokB]) ∈ split [tokNL, tokNL, tokA, tokDash, tokDash, tokB, tokNL, tokZ] ∧
    split ([tokA] ++ [tokB]) = [([tokA], [])] ∧
    split ([tokA] ++ [tokB]) ≠ [([tokA], [tokB])] := by
  refine ⟨by decide, by decide, by decide⟩

/-- Claim C8 (amended): regrouping a delimiter-free token sequence is not the
identity — it yields a single statement whose flags group is the sequence
with its final token dropped and whose values group is empty. -/
theorem split_flattened_regroup (ts : List Tok)
    (h : ∀ t ∈ ts, isSpecial t = false) : split ts = [(ts.dropLast, [])] := by
  rw [split, splitRunState_ordinary ts h]

/-- Claim C8 witness: regrouping the flattened statement `[a, b]` yields
`[([a], [])]`. -/
theorem split_flattened_regroup_witness : split [tokA, tokB] = [([tokA], [])] :=
  split_flattened_regroup [tokA, tokB] (by decide)

/-- Claim C6 counterexample: after the ordinary token `a`, the `DASH` at
position 1 is not the very first token of the input, the dash flag is not
pending, and yet processing it does not arm the dash flag (the initial
`skipped` marker absorbs it). -/
theorem dash_later_position_not_armed_cex :
    ¬ ((splitRunState [tokA]).dash = false →
        (splitRunState [tokA, tokDash]).dash = true) := by
  decide

/-- Claim C6 (amended): the leading-marker absorption applies to the first
`DASH` (or other special token) anywhere in the input, not only at position
0 — after any delimiter-free prefix the first `DASH` is absorbed without
arming the dash flag and merely consumes the skip marker; a second `DASH`
then arms the dash flag, and a third (second consecutive unskipped) `DASH`
flips the group index from 0 to 1. -/
theorem dash_skip_absorption_and_arming (ts : List Tok) (d : Tok)
    (hts : ∀ t ∈ ts, isSpecial t = false) (hd : d.cat = "DASH") :
    ((splitRunState (ts ++ [d])).dash = false ∧
      (splitRunState (ts ++ [d])).skipped = false) ∧
    (splitRunState (ts ++ [d, d])).dash = true ∧
    ((splitRunState (ts ++ [d, d, d])).dash = false ∧
      (splitRunState (ts ++ [d, d, d])).write_to = 1) := by
  cases ts with
  | nil =>
      refine ⟨⟨?_, ?_⟩, ?_, ?_, ?_⟩ <;>
        simp [splitRunState, splitGo, handleCat, stepEmit, splitInit, hd]
  | cons y ys =>
      have hS := splitRunState_ordinary (y :: ys) hts
      have h1 := splitRunState_append y ys [d]
      have h2 := splitRunState_append y ys [d, d]
      have h3 := splitRunState_append y ys [d, d, d]
      rw [hS] at h1 h2 h3
      refine ⟨⟨?_, ?_⟩, ?_, ?_, ?_⟩ <;>
        first
          | (rw [h1]; simp [splitGo, handleCat, stepEmit, hd])
          | (rw [h2]; simp [splitGo, handleCat, stepEmit, hd])
          | (rw [h3]; simp [splitGo, handleCat, stepEmit, hd])

/-- Claim C6 witness: with the delimiter-free prefix `[a]`, the dash at
position 1 is absorbed, a second dash arms the flag, and a third flips the
group index. -/
theorem dash_skip_absorption_and_arming_witness :
    (((splitRunState ([tokA] ++ [tokDash])).dash = false ∧
      (splitRunState ([tokA] ++ [tokDash])).skipped = false) ∧
    (splitRunState ([tokA] ++ [tokDash, tokDash])).dash = true ∧
    ((splitRunState ([tokA] ++ [tokDash, tokDash, tokDash])).dash = false ∧
      (splitRunState ([tokA] ++ [tokDash, tokDash, tokDash])).write_to = 1)) :=
  dash_skip_absorption_and_arming [tokA] tokDash (by decide) rfl

/-- Claim C7 counterexample: in `split [a, \, \, b, c]` the first backslash
(which is not the very first token of input) is appended to a group, and the
token `b` immediately following the second (escape-arming) backslash is also
appended — contradicting that a backslash is never appended and that the
token following it is consumed. -/
theorem backslash_following_token_appended_cex :
    memOut tokBS (split [tokA, tokBS, tokBS, tokB, tokC]) ∧
    memOut tokB (split [tokA, tokBS, tokBS, tokB, tokC]) ∧
    split [tokA, tokBS, tokBS, tokB, tokC] = [([tokA, tokBS, tokB], [])] := by
  refine ⟨by decide, by decide, by decide⟩

/-- Claim C7 (amended): a `BACKSLASH` reached with the skip marker clear is
itself never appended and arms the skip marker; but the skip marker only
neutralises the next special token — an ordinary token following the
backslash is still appended to the current group (when the token after it is
processed). -/
theorem backslash_arms_skip_not_consuming_ordinary
    (s : SplitState) (prev bs u v : Tok) (rest : List Tok)
    (hbs : bs.cat = "BACKSLASH") (hsk : s.skipped = false)
    (hu : isSpecial u = false) (hv : isSpecial v = false) :
    splitGo (bs :: u :: v :: rest) prev s =
      splitGo rest v
        ⟨appendLast (stepEmit prev s).out s.write_to u, s.write_to, false, true, true⟩ := by
  obtain ⟨hu1, hu2, hu3⟩ := isSpecial_false_iff.1 hu
  obtain ⟨hv1, hv2, hv3⟩ := isSpecial_false_iff.1 hv
  obtain ⟨o, w, dsh, sk, pt⟩ := s
  cases hsk
  cases pt <;> cases dsh <;>
    simp [splitGo, handleCat, stepEmit, hbs, hu1, hu2, hu3, hv1, hv2, hv3]

/-- Claim C7 witness: starting from a state with the skip marker clear, the
backslash is dropped, the following ordinary token `b` is appended, and the
skip marker ends up armed. -/
theorem backslash_arms_skip_not_consuming_ordinary_witness :
    splitGo [tokBS, tokB, tokC] tokA (⟨[([], [])], 0, false, false, true⟩ : SplitState) =
      splitGo [] tokC (⟨[([tokA, tokB], [])], 0, false, true, true⟩ : SplitState) :=
  backslash_arms_skip_not_consuming_ordinary
    ⟨[([], [])], 0, false, false, true⟩ tokA tokBS tokB tokC [] rfl rfl
    (by decide) (by decide)

/-- Claim C1: the parsing pipeline never produces the specified command
queue — the statement loop in `parse` is a stub (`pass`), so `out` stays
empty and `out[0]` raises `IndexError` on every input, including the
scenario text; `preparse` propagates the exception before any queue entry
is appended. -/
theorem parse_pipeline_raises_index_error :
    (∀ data : List Char, parse data = .raised .indexError) ∧
    (∀ content : List Char, preparse content = .raised .indexError) ∧
    preparse cfgText = .raised .indexError := by
  have hfold : ∀ (l : List Stmt) (acc : List (List String)),
      List.foldl (fun acc _x => acc) acc l = acc := by
    intro l
    induction l with
    | nil => intro acc; rfl
    | cons x xs ih => intro acc; exact ih acc
  have hp : ∀ data : List Char, parse data = .raised .indexError := by
    intro data
    simp [parse, hfold]
  have hpre : ∀ content : List Char, preparse content = .raised .indexError := by
    intro content
    simp [preparse, hp content]
  exact ⟨hp, hpre, hpre cfgText⟩

/-- Claim C2: the echo handler prints the space-joined arguments, but it
never returns an Ok `Result` — the trailing `return Result()` raises
`TypeError` on every invocation because `Result.__init__` requires a
positional argument. -/
theorem echo_prints_then_raises_type_error :
    (∀ (queue : List QEntry) (p : Nat),
      echo queue p = ([String.intercalate " " (queueArgs queue p)],
        .raised (.typeError "init() missing 1 required positional argument: data"))) ∧
    echo [("echo", ["hello", "world"])] 0 =
      (["hello world"],
        .raised (.typeError "init() missing 1 required positional argument: data")) :=
  ⟨fun _queue _p => rfl, rfl⟩

/-- Filesystem snapshot for the precondition scenarios: `/a` and `/b` exist
as files and `/dst` is not a directory. -/
def fsPre : FSState := ⟨["/parent"], ["/a", "/b"]⟩

/-- Claim C3: with zero sources, or with more than one source and a
destination that is not an existing directory, `copy` and `move` perform no
filesystem mutation (the check runs before the loop) — but they raise
`TypeError` from the precondition check's `Result(e=...)` construction
instead of returning an Err `Result`. -/
theorem copy_move_preconditions_raise_without_mutation :
    copy [("copy", ["/dst"])] 0 fsPre =
      (fsPre, .raised (.typeError "init() got an unexpected keyword argument e")) ∧
    copy [("copy", ["/a", "/b", "/dst"])] 0 fsPre =
      (fsPre, .raised (.typeError "init() got an unexpected keyword argument e")) ∧
    move [("move", ["/dst"])] 0 fsPre =
      (fsPre, .raised (.typeError "init() got an unexpected keyword argument e")) ∧
    move [("move", ["/a", "/b", "/dst"])] 0 fsPre =
      (fsPre, .raised (.typeError "init() got an unexpected keyword argument e")) :=
  ⟨rfl, rfl, rfl, rfl⟩

/-- Claim C4: `unwrap` on an Err `Result` is fatal to the whole process —
the error text is printed/logged and the process exits with status 2 —
while `unwrap` on an Ok `Result` returns the payload without terminating. -/
theorem unwrap_err_fatal_ok_returns (r : Result) :
    (r.result = false → (unwrap r).1 = .exited 2 ∧ (unwrap r).2 ≠ []) ∧
    (r.result = true → unwrap r = (.ret r.data, [])) := by
  obtain ⟨res, data⟩ := r
  cases res
  · refine ⟨fun _ => ⟨rfl, ?_⟩, fun h => Bool.noConfusion h⟩
    have hv : (unwrap (⟨false, data⟩ : Result)).2 =
        ["[&] " ++ replaceNL (strVal data) "\n[\x60] "] := rfl
    rw [hv]
    simp
  · exact ⟨fun h => Bool.noConfusion h, fun _ => rfl⟩

/-- Claim C4 witness: an Err `Result` (as built by `Result(exception)`)
exits with status 2 and logs, an Ok `Result` returns its payload. -/
theorem unwrap_err_fatal_ok_returns_witness :
    ((unwrap ⟨false, .pyErr "<class \x27Exception\x27>"⟩).1 = .exited 2 ∧
      (unwrap ⟨false, .pyErr "<class \x27Exception\x27>"⟩).2 ≠ []) ∧
    unwrap ⟨true, .pyBool true⟩ = (.ret (.pyBool true), []) :=
  ⟨(unwrap_err_fatal_ok_returns ⟨false, .pyErr "<class \x27Exception\x27>"⟩).1 rfl,
    (unwrap_err_fatal_ok_returns ⟨true, .pyBool true⟩).2 rfl⟩

/-- Claim C5: an entry whose command name is not in the registry is
non-fatal — the `KeyError` from the registry lookup is caught, an
error-level diagnostic is printed, and execution proceeds with the next
entry; for the queue `[("frobnicate", []), ("echo", ["ok"])]` the first
entry logs the diagnostic and the second entry's `echo` still prints
`"ok"` (before `echo` itself dies on its `Result()` bug). -/
theorem run_unresolved_command_continues :
    (∀ (queue : List QEntry) (x : Nat) (xs : List Nat) (st : RunState)
        (name : String) (args : List String),
      queue.get? x = some (name, args) →
      name ∉ ["copy", "echo", "mkdir", "move", "build"] →
      runGo queue (x :: xs) st =
        runGo queue xs
          ⟨st.fs, st.output ++ (printf ("Unresolved command: " ++ name) "e").printed⟩) ∧
    run [("frobnicate", []), ("echo", ["ok"])] ⟨⟨[], []⟩, []⟩ =
      .raised ⟨⟨[], []⟩, ["[@] Unresolved command: frobnicate", "ok"]⟩
        (.typeError "init() missing 1 required positional argument: data") := by
  constructor
  · intro queue x xs st name args hget hmem
    simp only [List.mem_cons, List.not_mem_nil, or_false, not_or] at hmem
    obtain ⟨h1, h2, h3, h4, h5⟩ := hmem
    simp only [runGo, hget, Option.getD_some]
    simp [callHandler, h1, h2, h3, h4, h5]
  · decide

/-- Claim C5 witness: the general continuation law applied to the
`frobnicate` entry of the concrete queue. -/
theorem run_unresolved_command_continues_witness :
    runGo [("frobnicate", []), ("echo", ["ok"])] [0, 1] ⟨⟨[], []⟩, []⟩ =
      runGo [("frobnicate", []), ("echo", ["ok"])] [1]
        ⟨⟨[], []⟩, [] ++ (printf ("Unresolved command: " ++ "frobnicate") "e").printed⟩ :=
  run_unresolved_command_continues.1 [("frobnicate", []), ("echo", ["ok"])]
    0 [1] ⟨⟨[], []⟩, []⟩ "frobnicate" [] rfl (by decide)

theorem replaceCat_eq_none_of_alnum {c : Char}
    (h : (48 ≤ c.toNat ∧ c.toNat ≤ 57) ∨ (65 ≤ c.toNat ∧ c.toNat ≤ 90) ∨
      (97 ≤ c.toNat ∧ c.toNat ≤ 122)) : replaceCat c = none := by
  have h1 : c ≠ '\\' := fun he => by subst he; revert h; decide
  have h2 : c ≠ '#' := fun he => by subst he; revert h; decide
  have h3 : c ≠ '\x27' := fun he => by subst he; revert h; decide
  have h4 : c ≠ '"' := fun he => by subst he; revert h; decide
  have h5 : c ≠ '?' := fun he => by subst he; revert h; decide
  have h6 : c ≠ '(' := fun he => by subst he; revert h; decide
  have h7 : c ≠ ')' := fun he => by subst he; revert h; decide
  have h8 : c ≠ '-' := fun he => by subst he; revert h; decide
  have h9 : c ≠ ' ' := fun he => by subst he; revert h; decide
  have h10 : c ≠ '\n' := fun he => by subst he; revert h; decide
  have h11 : c ≠ ';' := fun he => by subst he; revert h; decide
  simp [replaceCat, h1, h2, h3, h4, h5, h6, h7, h8, h9, h10, h11]

theorem charCat_letter {c : Char} (h : pyLetter c = true) :
    charCat c = some "LETTER" := by
  have hr : (65 ≤ c.toNat ∧ c.toNat ≤ 90) ∨ (97 ≤ c.toNat ∧ c.toNat ≤ 122) := by
    simpa [pyLetter] using h
  have hn : replaceCat c = none := replaceCat_eq_none_of_alnum (Or.inr hr)
  have hp : pyPunct c = false := by
    simp only [pyPunct, decide_eq_false_iff_not]
    omega
  have hd : pyDigit c = false := by
    simp only [pyDigit, decide_eq_false_iff_not]
    omega
  simp [charCat, hn, hp, hd, h]

theorem charCat_digit {c : Char} (h : pyDigit c = true) :
    charCat c = some "NUMBER" := by
  have hr : 48 ≤ c.toNat ∧ c.toNat ≤ 57 := by
    simpa [pyDigit] using h
  have hn : replaceCat c = none := replaceCat_eq_none_of_alnum (Or.inl hr)
  have hp : pyPunct c = false := by
    simp only [pyPunct, decide_eq_false_iff_not]
    omega
  simp [charCat, hn, hp, h]

theorem lexGo_tokens : ∀ (cs : List Char) (pos : Nat),
    (lexGo cs pos).1 =
      cs.filterMap (fun c => (charCat c).map (fun t => Tok.mk t (String.singleton c))) := by
  intro cs
  induction cs with
  | nil => intro _pos; rfl
  | cons c rest ih =>
      intro pos
      cases hc : charCat c <;> simp [lexGo, hc, ih (pos + 1)]

/-- Claim C9: the lexer classifies every mapped character according to the
fixed table — letters to `LETTER`, digits to `NUMBER`, remaining punctuation
to `PUNCTUATION`, the eleven single-character overrides (with both the
newline and `;` mapping to the newline category) — producing exactly one
token per mapped character; an unmapped character yields no token but a
printed diagnostic and does not abort lexing; and the token stream follows
the input character order (it is the order-preserving `filterMap` of the
classification). -/
theorem lex_classification_table :
    (∀ c : Char, pyLetter c = true → charCat c = some "LETTER") ∧
    (∀ c : Char, pyDigit c = true → charCat c = some "NUMBER") ∧
    (∀ c : Char, pyPunct c = true → replaceCat c = none →
      charCat c = some "PUNCTUATION") ∧
    (charCat '\\' = some "BACKSLASH" ∧ charCat '#' = some "COMMENT" ∧
      charCat '\x27' = some "QUOTA" ∧ charCat '"' = some "DOUBLE_QUOTA" ∧
      charCat '?' = some "VARIABLE" ∧ charCat '(' = some "PARENTESS_LEFT" ∧
      charCat ')' = some "PARENTESS_RIGHT" ∧ charCat '-' = some "DASH" ∧
      charCat ' ' = some "WHITESPACE" ∧ charCat '\n' = some "NLINE" ∧
      charCat ';' = some "NLINE") ∧
    (∀ (c : Char) (t : String), charCat c = some t →
      lexFull [c] = ([⟨t, String.singleton c⟩], [])) ∧
    (∀ c : Char, charCat c = none → (lexFull [c]).1 = [] ∧ (lexFull [c]).2 ≠ []) ∧
    (∀ cs : List Char, lex cs =
      cs.filterMap (fun c => (charCat c).map (fun t => Tok.mk t (String.singleton c)))) := by
  refine ⟨fun c h => charCat_letter h, fun c h => charCat_digit h,
    fun c hp hr => by simp [charCat, hr, hp],
    ⟨rfl, rfl, rfl, rfl, rfl, rfl, rfl, rfl, rfl, rfl, rfl⟩,
    fun c t h => by simp [lexFull, lexGo, h],
    fun c h => ⟨by simp [lexFull, lexGo, h], ?_⟩,
    fun cs => lexGo_tokens cs 0⟩
  have hv : (lexFull [c]).2 =
      ["[*] " ++ replaceNL ("Unknown symbol " ++ String.singleton c ++ " at " ++ toString 0)
        "\n[\x60] "] := by
    simp [lexFull, lexGo, h]
    rfl
  rw [hv]
  simp

/-- Claim C9 witness: the table at `a`, `7`, `.`, the backslash override,
a one-character lex, and the unmapped tab character. -/
theorem lex_classification_table_witness :
    charCat 'a' = some "LETTER" ∧ charCat '7' = some "NUMBER" ∧
    charCat '.' = some "PUNCTUATION" ∧
    lexFull ['a'] = ([⟨"LETTER", "a"⟩], []) ∧
    ((lexFull ['\t']).1 = [] ∧ (lexFull ['\t']).2 ≠ []) := by
  obtain ⟨hl, hd, hp, _hov, hone, hunk, _hord⟩ := lex_classification_table
  exact ⟨hl 'a' (by decide), hd '7' (by decide), hp '.' (by decide) (by decide),
    hone 'a' "LETTER" (hl 'a' (by decide)), hunk '\t' (by decide)⟩

end BuildPy
